import Mathlib

/-!
Shallow embedding of the bricklayer DBSApi workflow
(src/bricklayer/api/__init__.py).

The remote workspace calls (export_workspace, import_workspace, mkdirs,
create_job, get_cluster_id_for_name) and the local file deletion
(pathlib.Path.unlink) are external effects.  We model each call of the
Python methods as a pure function driven by an oracle: a list of outcomes,
one consumed per external call, each outcome either success (none) or an
exception (some e).  Every function returns the final result, the trace of
external calls it issued in order, and the unconsumed oracle.  Exceptions
are modelled by DbError: requests HTTPError values carry the error_code
field read from the response body, OSError values (as raised by unlink)
carry only a message and are not caught by the except clause of
export_current_notebook_run, exactly as in the source.

pathlib.PurePosixPath is modelled by a flag for absoluteness plus the list
of non-empty, non-dot path components, with joinpath, parent, as_posix and
is_absolute following the library semantics the source relies on.
-/

/-- A posix path as pathlib represents it: absolute flag plus components.
Components are the non-empty, non-dot segments between slashes. -/
structure PurePosixPath where
  absolute : Bool
  parts : List String
deriving Repr, DecidableEq

/-- Does the string begin with a slash (pathlib absoluteness test)? -/
def startsWithSlash (s : String) : Bool :=
  match s.data with
  | [] => false
  | c :: _ => c = '/'

/-- Split a character list at slashes (accumulator holds the current
segment reversed). -/
def splitSlashAux : List Char → List Char → List (List Char)
  | [], acc => [acc.reverse]
  | c :: cs, acc =>
      if c = '/' then acc.reverse :: splitSlashAux cs []
      else splitSlashAux cs (c :: acc)

/-- The pathlib components of a path string: split at slashes, drop empty
segments and single dots. -/
def pathParts (s : String) : List String :=
  ((splitSlashAux s.toList []).map (fun cs => String.mk cs)).filter
    (fun p => p != "" && p != ".")

/-- pathlib.PurePosixPath built from a string. -/
def PurePosixPath.ofString (s : String) : PurePosixPath :=
  ⟨startsWithSlash s, pathParts s⟩

/-- pathlib joinpath with a string argument: an absolute argument replaces
the path, otherwise its components are appended. -/
def PurePosixPath.joinpath (p : PurePosixPath) (s : String) : PurePosixPath :=
  if startsWithSlash s then PurePosixPath.ofString s
  else ⟨p.absolute, p.parts ++ pathParts s⟩

/-- Join components with single slashes. -/
def renderParts : List String → String
  | [] => ""
  | [p] => p
  | p :: q :: ps => p ++ "/" ++ renderParts (q :: ps)

/-- pathlib as_posix: the canonical string of the path. -/
def PurePosixPath.as_posix (p : PurePosixPath) : String :=
  if p.absolute then "/" ++ renderParts p.parts
  else if p.parts.isEmpty then "." else renderParts p.parts

/-- pathlib parent: drop the last component. -/
def PurePosixPath.parent (p : PurePosixPath) : PurePosixPath :=
  ⟨p.absolute, p.parts.dropLast⟩

/-- pathlib is_absolute. -/
def PurePosixPath.is_absolute (p : PurePosixPath) : Bool := p.absolute

/-- An exception as seen by the workflow: a requests HTTPError whose
response body carries error_code, or an OSError (e.g. from unlink). -/
inductive DbError where
  | http (error_code message : String)
  | os (message : String)
deriving Repr, DecidableEq

/-- The job specification dict submitted to JobsApi.create_job. -/
structure JobSpec where
  name : String
  existing_cluster_id : String
  notebook_task_path : String
  on_success : List (Option String)
  on_failure : List (Option String)
deriving Repr, DecidableEq

/-- One external call issued by the workflow, with its arguments. -/
inductive ApiCall where
  | exportCall (source_path target_path : String)
  | importCall (source_path target_path : String)
  | unlinkCall (path : String)
  | mkdirCall (dir_path : String)
  | getClusterIdCall (cluster_name : String)
  | createJobCall (job_json : JobSpec)
deriving Repr, DecidableEq

/-- Oracle of outcomes for the external calls, consumed in order; an
exhausted oracle answers success. -/
abbrev Oracle := List (Option DbError)

/-- Issue one external call: consume the next oracle outcome, record the
call in the trace. -/
def runCall (c : ApiCall) (w : Oracle) :
    Except DbError Unit × List ApiCall × Oracle :=
  match w with
  | [] => (Except.ok (), [c], [])
  | none :: rest => (Except.ok (), [c], rest)
  | some e :: rest => (Except.error e, [c], rest)

/-- DBSApi.export_notebook: one call of WorkspaceApi.export_workspace. -/
def export_notebook (w : Oracle) (source_path target_path : String) :
    Except DbError Unit × List ApiCall × Oracle :=
  runCall (ApiCall.exportCall source_path target_path) w

/-- DBSApi.import_notebook: one call of WorkspaceApi.import_workspace. -/
def import_notebook (w : Oracle) (source_path target_path : String) :
    Except DbError Unit × List ApiCall × Oracle :=
  runCall (ApiCall.importCall source_path target_path) w

/-- DBSApi.mkdir: one call of WorkspaceApi.mkdirs. -/
def mkdir (w : Oracle) (dir_path : String) :
    Except DbError Unit × List ApiCall × Oracle :=
  runCall (ApiCall.mkdirCall dir_path) w

/-- pathlib.Path.unlink on the staging file: one local deletion call. -/
def unlinkFile (w : Oracle) (path : String) :
    Except DbError Unit × List ApiCall × Oracle :=
  runCall (ApiCall.unlinkCall path) w

/-- The default staging directory of backup_notebook. -/
def tmpDirDefault : String := "/dbfs/mnt/external/tmp/"

/-- The default runs directory of export_current_notebook_run. -/
def runsDirDefault : String := "/Shared/runs/"

/-- The intermediate staging path of backup_notebook: tmp_dir joined with
the name backup_ followed by the drawn number (random.randint(0,1000)). -/
def backup_intermediate (tmp_dir : String) (rand : Nat) : PurePosixPath :=
  PurePosixPath.joinpath (PurePosixPath.ofString tmp_dir)
    ("backup_" ++ toString rand)

/-- DBSApi.backup_notebook.  rand stands for the value drawn by
random.randint(0,1000).  The source exports outside the try block, then
runs import inside try with unlink in finally: the unlink always runs
after a successful export, and an exception raised by the finally clause
replaces the exception of the body, as in Python. -/
def backup_notebook (w : Oracle) (source_path target_path tmp_dir : String)
    (rand : Nat) : Except DbError Unit × List ApiCall × Oracle :=
  let intermediate_location := backup_intermediate tmp_dir rand
  match export_notebook w source_path intermediate_location.as_posix with
  | (Except.error e, t1, w1) => (Except.error e, t1, w1)
  | (Except.ok _, t1, w1) =>
      let r2 := import_notebook w1 intermediate_location.as_posix target_path
      let r3 := unlinkFile r2.2.2 intermediate_location.as_posix
      ((match r3.1 with
        | Except.error e2 => Except.error e2
        | Except.ok _ => r2.1),
       t1 ++ r2.2.1 ++ r3.2.1, r3.2.2)

/-- The target path composed by export_current_notebook_run:
runs_dir joined with current_path with its first character stripped,
joined with the timestamp. -/
def run_target_path (runs_dir current_path timestamp : String) :
    PurePosixPath :=
  ((PurePosixPath.ofString runs_dir).joinpath (current_path.drop 1)).joinpath
    timestamp

/-- DBSApi.export_current_notebook_run.  current_path is what the context
provider returns, timestamp the formatted current time; rand1 and rand2
the randint draws of the two possible backup_notebook calls.  Only an
HTTPError is caught, and only when its error_code is
RESOURCE_DOES_NOT_EXIST does the function create the parent directory and
retry once; the mkdir call and the retry are outside any try block, so
their exceptions propagate. -/
def export_current_notebook_run (w : Oracle)
    (current_path timestamp runs_dir : String) (rand1 rand2 : Nat) :
    Except DbError Unit × List ApiCall × Oracle :=
  let target_path := run_target_path runs_dir current_path timestamp
  match backup_notebook w current_path target_path.as_posix tmpDirDefault
      rand1 with
  | (Except.ok _, t1, w1) => (Except.ok (), t1, w1)
  | (Except.error (DbError.http error_code msg), t1, w1) =>
      if error_code = "RESOURCE_DOES_NOT_EXIST" then
        match mkdir w1 target_path.parent.as_posix with
        | (Except.error em, tm, w2) => (Except.error em, t1 ++ tm, w2)
        | (Except.ok _, tm, w2) =>
            let r2 := backup_notebook w2 current_path target_path.as_posix
              tmpDirDefault rand2
            (r2.1, t1 ++ tm ++ r2.2.1, r2.2.2)
      else (Except.error (DbError.http error_code msg), t1, w1)
  | (Except.error (DbError.os msg), t1, w1) =>
      (Except.error (DbError.os msg), t1, w1)

/-- The ambient notebook context (path and cluster id of the running
notebook), as supplied by get_notebook_context. -/
structure NotebookContext where
  notebook_path : String
  notebook_cluster_id : String
deriving Repr, DecidableEq

/-- Values returned by successful remote lookups. -/
structure Env where
  clusterIdForName : String → String

/-- Python truthiness of an optional string argument: present and
non-empty. -/
def truthy : Option String → Bool
  | none => false
  | some s => s != ""

/-- An exception raised by create_job: the local assert failure or an
exception of a remote call. -/
inductive PyError where
  | assertionError
  | db (e : DbError)
deriving Repr, DecidableEq

/-- The notebook path create_job submits: a relative path is resolved
against the parent of the current notebook path, an absolute path is left
unchanged. -/
def resolve_notebook_path (ctx : NotebookContext) (notebook_path : String) :
    String :=
  if (PurePosixPath.ofString notebook_path).is_absolute then notebook_path
  else
    (((PurePosixPath.ofString ctx.notebook_path).parent).joinpath
      notebook_path).as_posix

/-- Tail of DBSApi.create_job after the cluster id is known: pick the job
name (the notebook_path argument as passed when job_name is not truthy),
resolve the notebook path, build the job json and submit it. -/
def create_job_submit (ctx : NotebookContext) (w : Oracle)
    (t0 : List ApiCall) (notebook_path : String)
    (job_name notifications_email : Option String)
    (cluster_id_resolved : String) :
    Except PyError JobSpec × List ApiCall × Oracle :=
  let job_name_used := if truthy job_name then job_name.getD ""
    else notebook_path
  let resolved_path := resolve_notebook_path ctx notebook_path
  let spec : JobSpec := ⟨job_name_used, cluster_id_resolved, resolved_path,
    [notifications_email], [notifications_email]⟩
  match runCall (ApiCall.createJobCall spec) w with
  | (Except.error e, t, w1) => (Except.error (PyError.db e), t0 ++ t, w1)
  | (Except.ok _, t, w1) => (Except.ok spec, t0 ++ t, w1)

/-- DBSApi.create_job.  A truthy cluster_name first asserts that
cluster_id is None (any provided cluster_id fails the assert before any
remote call), then resolves the name remotely; otherwise a truthy
cluster_id is used as given; otherwise the ambient cluster id is used. -/
def create_job (env : Env) (ctx : NotebookContext) (w : Oracle)
    (notebook_path : String)
    (job_name cluster_name cluster_id notifications_email : Option String) :
    Except PyError JobSpec × List ApiCall × Oracle :=
  if truthy cluster_name then
    if cluster_id.isSome then (Except.error PyError.assertionError, [], w)
    else
      match runCall (ApiCall.getClusterIdCall (cluster_name.getD "")) w with
      | (Except.error e, t, w1) => (Except.error (PyError.db e), t, w1)
      | (Except.ok _, t, w1) =>
          create_job_submit ctx w1 t notebook_path job_name
            notifications_email (env.clusterIdForName (cluster_name.getD ""))
  else if truthy cluster_id then
    create_job_submit ctx w [] notebook_path job_name notifications_email
      (cluster_id.getD "")
  else
    create_job_submit ctx w [] notebook_path job_name notifications_email
      ctx.notebook_cluster_id

/-- Number of export calls (one per transfer attempt) in a trace. -/
def countExports (t : List ApiCall) : Nat :=
  t.countP (fun c => match c with
    | ApiCall.exportCall _ _ => true
    | _ => false)

/-- Number of unlink (staging artifact deletion) calls in a trace. -/
def countUnlinks (t : List ApiCall) : Nat :=
  t.countP (fun c => match c with
    | ApiCall.unlinkCall _ => true
    | _ => false)

/-- Number of mkdir calls in a trace. -/
def countMkdirs (t : List ApiCall) : Nat :=
  t.countP (fun c => match c with
    | ApiCall.mkdirCall _ => true
    | _ => false)

/-- The outcome the oracle gives to the next external call. -/
def headOutcome : Oracle → Option DbError
  | [] => none
  | o :: _ => o

/-- The staging path string a backup call with these arguments uses. -/
def stagingPath (tmp_dir : String) (rand : Nat) : String :=
  (backup_intermediate tmp_dir rand).as_posix

/-- If the oracle fails the export call, backup_notebook stops after the
single export call and propagates that error. -/
theorem backup_notebook_headFail (w : Oracle) (s t d : String) (r : Nat)
    (e : DbError) (h : headOutcome w = some e) :
    backup_notebook w s t d r =
      (Except.error e, [ApiCall.exportCall s (stagingPath d r)], w.tail) := by
  rcases w with _ | ⟨o, w⟩
  · simp [headOutcome] at h
  · simp only [headOutcome] at h
    subst h
    rfl

/-- If the oracle lets the export call succeed, backup_notebook issues
export, import and unlink in order; the unlink outcome, when an error,
replaces the import outcome, exactly as a Python finally clause. -/
theorem backup_notebook_headOk (w : Oracle) (s t d : String) (r : Nat)
    (h : headOutcome w = none) :
    backup_notebook w s t d r =
      ((match headOutcome (w.drop 2) with
        | some e2 => Except.error e2
        | none =>
          match headOutcome (w.drop 1) with
          | some e => Except.error e
          | none => Except.ok ()),
       [ApiCall.exportCall s (stagingPath d r),
        ApiCall.importCall (stagingPath d r) t,
        ApiCall.unlinkCall (stagingPath d r)], w.drop 3) := by
  rcases w with _ | ⟨o, w⟩
  · rfl
  · simp only [headOutcome] at h
    subst h
    rcases w with _ | ⟨o2, w⟩
    · rfl
    · rcases w with _ | ⟨o3, w⟩
      · rcases o2 with _ | e2 <;> rfl
      · rcases o2 with _ | e2 <;> rcases o3 with _ | e3 <;> rfl

theorem countExports_append (a b : List ApiCall) :
    countExports (a ++ b) = countExports a + countExports b := by
  simp [countExports, List.countP_append]

theorem countUnlinks_append (a b : List ApiCall) :
    countUnlinks (a ++ b) = countUnlinks a + countUnlinks b := by
  simp [countUnlinks, List.countP_append]

theorem countMkdirs_append (a b : List ApiCall) :
    countMkdirs (a ++ b) = countMkdirs a + countMkdirs b := by
  simp [countMkdirs, List.countP_append]

/-- Every backup_notebook call issues exactly one export call. -/
theorem countExports_backup (w : Oracle) (s t d : String) (r : Nat) :
    countExports (backup_notebook w s t d r).2.1 = 1 := by
  rcases h : headOutcome w with _ | e
  · rw [backup_notebook_headOk w s t d r h]; rfl
  · rw [backup_notebook_headFail w s t d r e h]; rfl

/-- backup_notebook never issues a mkdir call. -/
theorem countMkdirs_backup (w : Oracle) (s t d : String) (r : Nat) :
    countMkdirs (backup_notebook w s t d r).2.1 = 0 := by
  rcases h : headOutcome w with _ | e
  · rw [backup_notebook_headOk w s t d r h]; rfl
  · rw [backup_notebook_headFail w s t d r e h]; rfl

/-- The mkdir method is a single external call. -/
theorem mkdir_eq (w : Oracle) (p : String) :
    mkdir w p =
      ((match headOutcome w with
        | some e => Except.error e
        | none => Except.ok ()),
       [ApiCall.mkdirCall p], w.tail) := by
  rcases w with _ | ⟨_ | e, w⟩ <;> rfl

/-- Claim C1: in every backup_notebook call whose export step succeeds,
the staging artifact is deleted exactly once, both when the import step
succeeds and when it fails; in the failure case the cleanup still occurs
and the import error propagates to the caller. -/
theorem backup_notebook_cleanup_exactly_once
    (w : Oracle) (source_path target_path tmp_dir : String) (rand : Nat)
    (hexp : headOutcome w = none) :
    countUnlinks (backup_notebook w source_path target_path tmp_dir
      rand).2.1 = 1 ∧
    (∀ e, headOutcome (w.drop 1) = some e → headOutcome (w.drop 2) = none →
      (backup_notebook w source_path target_path tmp_dir rand).1
        = Except.error e) ∧
    (headOutcome (w.drop 1) = none → headOutcome (w.drop 2) = none →
      (backup_notebook w source_path target_path tmp_dir rand).1
        = Except.ok ()) := by
  rw [backup_notebook_headOk w source_path target_path tmp_dir rand hexp]
  refine ⟨rfl, ?_, ?_⟩
  · intro e h1 h2
    rw [List.drop_one] at h1
    simp [h1, h2]
  · intro h1 h2
    rw [List.drop_one] at h1
    simp [h1, h2]

theorem backup_notebook_cleanup_exactly_once_witness :
    countUnlinks (backup_notebook [none, some (DbError.http "E" "m"), none]
      "/a/b" "/c/d" tmpDirDefault 3).2.1 = 1 ∧
    (backup_notebook [none, some (DbError.http "E" "m"), none]
      "/a/b" "/c/d" tmpDirDefault 3).1
      = Except.error (DbError.http "E" "m") :=
  ⟨(backup_notebook_cleanup_exactly_once
      [none, some (DbError.http "E" "m"), none] "/a/b" "/c/d" tmpDirDefault 3
      rfl).1,
   (backup_notebook_cleanup_exactly_once
      [none, some (DbError.http "E" "m"), none] "/a/b" "/c/d" tmpDirDefault 3
      rfl).2.1 (DbError.http "E" "m") rfl rfl⟩

/-- Claim C2: in every backup_notebook call whose export step fails, no
deletion of the staging artifact is attempted (the trace is the lone
export call) and the export error propagates to the caller. -/
theorem backup_notebook_export_fail_no_cleanup
    (w : Oracle) (source_path target_path tmp_dir : String) (rand : Nat)
    (e : DbError) (hexp : headOutcome w = some e) :
    countUnlinks (backup_notebook w source_path target_path tmp_dir
      rand).2.1 = 0 ∧
    (backup_notebook w source_path target_path tmp_dir rand).1
      = Except.error e ∧
    (backup_notebook w source_path target_path tmp_dir rand).2.1
      = [ApiCall.exportCall source_path (stagingPath tmp_dir rand)] := by
  rw [backup_notebook_headFail w source_path target_path tmp_dir rand e hexp]
  exact ⟨rfl, rfl, rfl⟩

theorem backup_notebook_export_fail_no_cleanup_witness :
    countUnlinks (backup_notebook [some (DbError.http "X" "m")]
      "/a/b" "/c/d" tmpDirDefault 7).2.1 = 0 ∧
    (backup_notebook [some (DbError.http "X" "m")]
      "/a/b" "/c/d" tmpDirDefault 7).1
      = Except.error (DbError.http "X" "m") ∧
    (backup_notebook [some (DbError.http "X" "m")]
      "/a/b" "/c/d" tmpDirDefault 7).2.1
      = [ApiCall.exportCall "/a/b" (stagingPath tmpDirDefault 7)] :=
  backup_notebook_export_fail_no_cleanup [some (DbError.http "X" "m")]
    "/a/b" "/c/d" tmpDirDefault 7 (DbError.http "X" "m") rfl



theorem countExports_single_mkdir (p : String) :
    countExports [ApiCall.mkdirCall p] = 0 := rfl

/-- Claim C3: export_current_notebook_run makes at most two transfer
attempts (each backup_notebook call issues exactly one export call, so
export calls count the attempts); a lone attempt happens whenever the
first succeeds or fails with anything but an http RESOURCE_DOES_NOT_EXIST
error; and when the recovery path is taken (first attempt failed with that
code, mkdir succeeded) the overall result is exactly the second attempt's
result, with no further retry. -/
theorem export_run_at_most_two_attempts
    (w : Oracle) (current_path timestamp runs_dir : String) (r1 r2 : Nat) :
    countExports (export_current_notebook_run w current_path timestamp
      runs_dir r1 r2).2.1 ≤ 2 ∧
    ((backup_notebook w current_path
        (run_target_path runs_dir current_path timestamp).as_posix
        tmpDirDefault r1).1 = Except.ok () →
      countExports (export_current_notebook_run w current_path timestamp
        runs_dir r1 r2).2.1 = 1) ∧
    (∀ e, (backup_notebook w current_path
        (run_target_path runs_dir current_path timestamp).as_posix
        tmpDirDefault r1).1 = Except.error e →
      (∀ msg, e ≠ DbError.http "RESOURCE_DOES_NOT_EXIST" msg) →
      countExports (export_current_notebook_run w current_path timestamp
        runs_dir r1 r2).2.1 = 1) ∧
    (∀ msg, (backup_notebook w current_path
        (run_target_path runs_dir current_path timestamp).as_posix
        tmpDirDefault r1).1
          = Except.error (DbError.http "RESOURCE_DOES_NOT_EXIST" msg) →
      headOutcome (backup_notebook w current_path
        (run_target_path runs_dir current_path timestamp).as_posix
        tmpDirDefault r1).2.2 = none →
      (export_current_notebook_run w current_path timestamp runs_dir
        r1 r2).1
        = (backup_notebook ((backup_notebook w current_path
            (run_target_path runs_dir current_path timestamp).as_posix
            tmpDirDefault r1).2.2.drop 1) current_path
            (run_target_path runs_dir current_path timestamp).as_posix
            tmpDirDefault r2).1) := by
  rcases hb : backup_notebook w current_path
      (run_target_path runs_dir current_path timestamp).as_posix
      tmpDirDefault r1 with ⟨res, tr, w1⟩
  have htr : countExports tr = 1 := by
    have h0 := countExports_backup w current_path
      (run_target_path runs_dir current_path timestamp).as_posix
      tmpDirDefault r1
    rw [hb] at h0
    exact h0
  rcases res with e | u
  · rcases e with ⟨code, msg⟩ | msg
    · by_cases hc : code = "RESOURCE_DOES_NOT_EXIST"
      · subst hc
        rcases hm : mkdir w1
            (run_target_path runs_dir current_path timestamp).parent.as_posix
            with ⟨mres, tm, w2⟩
        have hm2 := hm
        rw [mkdir_eq] at hm2
        have htm : tm = [ApiCall.mkdirCall
            (run_target_path runs_dir current_path
              timestamp).parent.as_posix] := by
          have h2 := congrArg (fun p => p.2.1) hm2
          simpa using h2.symm
        have hw2 : w2 = w1.tail := by
          have h2 := congrArg (fun p => p.2.2) hm2
          simpa using h2.symm
        rcases mres with em | um
        · have hsome : headOutcome w1 = some em := by
            have h2 := congrArg (fun p => p.1) hm2
            rcases h1 : headOutcome w1 with _ | e1
            · rw [h1] at h2
              simp at h2
            · rw [h1] at h2
              simp at h2
              rw [h2]
          simp only [export_current_notebook_run, hb, hm]
          refine ⟨?_, ?_, ?_, ?_⟩
          · show countExports (tr ++ tm) ≤ 2
            rw [countExports_append, htr, htm, countExports_single_mkdir]
            omega
          · intro he
            exact Except.noConfusion he
          · intro e2 he hne
            apply absurd _ (hne msg)
            exact (Except.error.inj he).symm
          · intro msg2 he hnone2
            simp only [hsome] at hnone2
            exact Option.noConfusion hnone2
        · have hnone : headOutcome w1 = none := by
            have h2 := congrArg (fun p => p.1) hm2
            rcases h1 : headOutcome w1 with _ | e1
            · rfl
            · rw [h1] at h2
              simp at h2
          simp only [export_current_notebook_run, hb, hm]
          refine ⟨?_, ?_, ?_, ?_⟩
          · show countExports (tr ++ tm ++ (backup_notebook w2 current_path
                (run_target_path runs_dir current_path timestamp).as_posix
                tmpDirDefault r2).2.1) ≤ 2
            rw [countExports_append, countExports_append, htr, htm,
              countExports_single_mkdir, countExports_backup]
          · intro he
            exact Except.noConfusion he
          · intro e2 he hne
            apply absurd _ (hne msg)
            exact (Except.error.inj he).symm
          · intro msg2 he hnone2
            simp [hw2, List.drop_one]
      · simp only [export_current_notebook_run, hb, if_neg hc]
        refine ⟨?_, ?_, ?_, ?_⟩
        · rw [htr]
          omega
        · intro he
          exact Except.noConfusion he
        · intro e2 he hne
          exact htr
        · intro msg2 he hnone2
          exact absurd (DbError.http.inj (Except.error.inj he)).1 hc
    · simp only [export_current_notebook_run, hb]
      refine ⟨?_, ?_, ?_, ?_⟩
      · rw [htr]
        omega
      · intro he
        exact Except.noConfusion he
      · intro e2 he hne
        exact htr
      · intro msg2 he hnone2
        exact DbError.noConfusion (Except.error.inj he)
  · simp only [export_current_notebook_run, hb]
    refine ⟨?_, ?_, ?_, ?_⟩
    · rw [htr]
      omega
    · intro he
      exact htr
    · intro e2 he hne
      exact Except.noConfusion he
    · intro msg2 he hnone2
      exact Except.noConfusion he

theorem export_run_at_most_two_attempts_witness :
    countExports (export_current_notebook_run
      [some (DbError.http "RESOURCE_DOES_NOT_EXIST" "m"), none, none, none]
      "/Users/a/nb" "20240115093000" "/Shared/runs/" 1 2).2.1 ≤ 2 ∧
    (export_current_notebook_run
      [some (DbError.http "RESOURCE_DOES_NOT_EXIST" "m"), none, none, none]
      "/Users/a/nb" "20240115093000" "/Shared/runs/" 1 2).1
      = (backup_notebook (((backup_notebook
          [some (DbError.http "RESOURCE_DOES_NOT_EXIST" "m"), none, none,
            none] "/Users/a/nb"
          (run_target_path "/Shared/runs/" "/Users/a/nb"
            "20240115093000").as_posix tmpDirDefault 1).2.2).drop 1)
          "/Users/a/nb"
          (run_target_path "/Shared/runs/" "/Users/a/nb"
            "20240115093000").as_posix tmpDirDefault 2).1 :=
  ⟨(export_run_at_most_two_attempts
      [some (DbError.http "RESOURCE_DOES_NOT_EXIST" "m"), none, none, none]
      "/Users/a/nb" "20240115093000" "/Shared/runs/" 1 2).1,
   (export_run_at_most_two_attempts
      [some (DbError.http "RESOURCE_DOES_NOT_EXIST" "m"), none, none, none]
      "/Users/a/nb" "20240115093000" "/Shared/runs/" 1 2).2.2.2 "m" rfl rfl⟩

/-- Claim C4: when the first transfer attempt fails with an http error
whose error_code is RESOURCE_DOES_NOT_EXIST, the orchestrator issues the
mkdir call on the parent of target_path immediately after the first
attempt's calls and before any call of the second attempt (whose trace is
t2, empty when the mkdir itself fails). -/
theorem export_run_mkdir_parent_before_retry
    (w : Oracle) (current_path timestamp runs_dir : String) (r1 r2 : Nat)
    (msg : String)
    (hfail : (backup_notebook w current_path
        (run_target_path runs_dir current_path timestamp).as_posix
        tmpDirDefault r1).1
          = Except.error (DbError.http "RESOURCE_DOES_NOT_EXIST" msg)) :
    ∃ t2, (export_current_notebook_run w current_path timestamp runs_dir
        r1 r2).2.1
      = (backup_notebook w current_path
          (run_target_path runs_dir current_path timestamp).as_posix
          tmpDirDefault r1).2.1
        ++ ApiCall.mkdirCall
            (run_target_path runs_dir current_path
              timestamp).parent.as_posix :: t2 ∧
      (headOutcome (backup_notebook w current_path
          (run_target_path runs_dir current_path timestamp).as_posix
          tmpDirDefault r1).2.2 = none →
        t2 = (backup_notebook ((backup_notebook w current_path
            (run_target_path runs_dir current_path timestamp).as_posix
            tmpDirDefault r1).2.2.drop 1) current_path
            (run_target_path runs_dir current_path timestamp).as_posix
            tmpDirDefault r2).2.1) ∧
      (∀ e, headOutcome (backup_notebook w current_path
          (run_target_path runs_dir current_path timestamp).as_posix
          tmpDirDefault r1).2.2 = some e → t2 = []) := by
  rcases hb : backup_notebook w current_path
      (run_target_path runs_dir current_path timestamp).as_posix
      tmpDirDefault r1 with ⟨res, tr, w1⟩
  rw [hb] at hfail
  simp only at hfail
  subst hfail
  rcases hm : mkdir w1
      (run_target_path runs_dir current_path timestamp).parent.as_posix
      with ⟨mres, tm, w2⟩
  have hm2 := hm
  rw [mkdir_eq] at hm2
  have htm : tm = [ApiCall.mkdirCall
      (run_target_path runs_dir current_path timestamp).parent.as_posix]
    := by
    have h2 := congrArg (fun p => p.2.1) hm2
    simpa using h2.symm
  have hw2 : w2 = w1.tail := by
    have h2 := congrArg (fun p => p.2.2) hm2
    simpa using h2.symm
  rcases mres with em | um
  · have hsome : headOutcome w1 = some em := by
      have h2 := congrArg (fun p => p.1) hm2
      rcases h1 : headOutcome w1 with _ | e1
      · rw [h1] at h2
        simp at h2
      · rw [h1] at h2
        simp at h2
        rw [h2]
    refine ⟨[], ?_, ?_, ?_⟩
    · simp only [export_current_notebook_run, hb, hm]
      show tr ++ tm = tr ++ [ApiCall.mkdirCall
        (run_target_path runs_dir current_path timestamp).parent.as_posix]
      rw [htm]
    · intro hnone
      simp only [hsome] at hnone
      exact Option.noConfusion hnone
    · intro e he
      rfl
  · have hnone : headOutcome w1 = none := by
      have h2 := congrArg (fun p => p.1) hm2
      rcases h1 : headOutcome w1 with _ | e1
      · rfl
      · rw [h1] at h2
        simp at h2
    refine ⟨(backup_notebook w2 current_path
        (run_target_path runs_dir current_path timestamp).as_posix
        tmpDirDefault r2).2.1, ?_, ?_, ?_⟩
    · simp only [export_current_notebook_run, hb, hm]
      show tr ++ tm ++ (backup_notebook w2 current_path
          (run_target_path runs_dir current_path timestamp).as_posix
          tmpDirDefault r2).2.1
        = tr ++ ApiCall.mkdirCall
            (run_target_path runs_dir current_path
              timestamp).parent.as_posix
          :: (backup_notebook w2 current_path
            (run_target_path runs_dir current_path timestamp).as_posix
            tmpDirDefault r2).2.1
      rw [htm, List.append_assoc]
      rfl
    · intro _
      rw [hw2, List.drop_one]
    · intro e he
      simp only [hnone] at he
      exact Option.noConfusion he

theorem export_run_mkdir_parent_before_retry_witness :
    ∃ t2, (export_current_notebook_run
        [some (DbError.http "RESOURCE_DOES_NOT_EXIST" "m"), none, none,
          none, none] "/Users/a/nb" "20240115093000" "/Shared/runs/"
        1 2).2.1
      = (backup_notebook
          [some (DbError.http "RESOURCE_DOES_NOT_EXIST" "m"), none, none,
            none, none] "/Users/a/nb"
          (run_target_path "/Shared/runs/" "/Users/a/nb"
            "20240115093000").as_posix tmpDirDefault 1).2.1
        ++ ApiCall.mkdirCall
            (run_target_path "/Shared/runs/" "/Users/a/nb"
              "20240115093000").parent.as_posix :: t2 ∧
      (headOutcome (backup_notebook
          [some (DbError.http "RESOURCE_DOES_NOT_EXIST" "m"), none, none,
            none, none] "/Users/a/nb"
          (run_target_path "/Shared/runs/" "/Users/a/nb"
            "20240115093000").as_posix tmpDirDefault 1).2.2 = none →
        t2 = (backup_notebook ((backup_notebook
            [some (DbError.http "RESOURCE_DOES_NOT_EXIST" "m"), none, none,
              none, none] "/Users/a/nb"
            (run_target_path "/Shared/runs/" "/Users/a/nb"
              "20240115093000").as_posix tmpDirDefault 1).2.2.drop 1)
            "/Users/a/nb"
            (run_target_path "/Shared/runs/" "/Users/a/nb"
              "20240115093000").as_posix tmpDirDefault 2).2.1) ∧
      (∀ e, headOutcome (backup_notebook
          [some (DbError.http "RESOURCE_DOES_NOT_EXIST" "m"), none, none,
            none, none] "/Users/a/nb"
          (run_target_path "/Shared/runs/" "/Users/a/nb"
            "20240115093000").as_posix tmpDirDefault 1).2.2 = some e →
        t2 = []) :=
  export_run_mkdir_parent_before_retry
    [some (DbError.http "RESOURCE_DOES_NOT_EXIST" "m"), none, none, none,
      none] "/Users/a/nb" "20240115093000" "/Shared/runs/" 1 2 "m" rfl

/-- Claim C5: when the first attempt fails with any error other than an
http RESOURCE_DOES_NOT_EXIST error, the orchestrator issues no mkdir
call, makes no second transfer attempt, and re-raises the original error
value unchanged (same constructor, code and message). -/
theorem export_run_other_error_propagates
    (w : Oracle) (current_path timestamp runs_dir : String) (r1 r2 : Nat)
    (e : DbError)
    (hfail : (backup_notebook w current_path
        (run_target_path runs_dir current_path timestamp).as_posix
        tmpDirDefault r1).1 = Except.error e)
    (hne : ∀ msg, e ≠ DbError.http "RESOURCE_DOES_NOT_EXIST" msg) :
    (export_current_notebook_run w current_path timestamp runs_dir
      r1 r2).1 = Except.error e ∧
    countMkdirs (export_current_notebook_run w current_path timestamp
      runs_dir r1 r2).2.1 = 0 ∧
    countExports (export_current_notebook_run w current_path timestamp
      runs_dir r1 r2).2.1 = 1 ∧
    (export_current_notebook_run w current_path timestamp runs_dir
      r1 r2).2.1
      = (backup_notebook w current_path
          (run_target_path runs_dir current_path timestamp).as_posix
          tmpDirDefault r1).2.1 := by
  rcases hb : backup_notebook w current_path
      (run_target_path runs_dir current_path timestamp).as_posix
      tmpDirDefault r1 with ⟨res, tr, w1⟩
  have htr : countExports tr = 1 := by
    have h0 := countExports_backup w current_path
      (run_target_path runs_dir current_path timestamp).as_posix
      tmpDirDefault r1
    rw [hb] at h0
    exact h0
  have hmk : countMkdirs tr = 0 := by
    have h0 := countMkdirs_backup w current_path
      (run_target_path runs_dir current_path timestamp).as_posix
      tmpDirDefault r1
    rw [hb] at h0
    exact h0
  rw [hb] at hfail
  simp only at hfail
  subst hfail
  rcases e with ⟨code, msg⟩ | msg
  · have hc : ¬ code = "RESOURCE_DOES_NOT_EXIST" := by
      intro h
      exact hne msg (by rw [h])
    simp only [export_current_notebook_run, hb, if_neg hc]
    exact ⟨trivial, hmk, htr, trivial⟩
  · simp only [export_current_notebook_run, hb]
    exact ⟨trivial, hmk, htr, trivial⟩

theorem export_run_other_error_propagates_witness :
    (export_current_notebook_run
      [some (DbError.http "PERMISSION_DENIED" "m")]
      "/Users/a/nb" "20240115093000" "/Shared/runs/" 1 2).1
      = Except.error (DbError.http "PERMISSION_DENIED" "m") ∧
    countMkdirs (export_current_notebook_run
      [some (DbError.http "PERMISSION_DENIED" "m")]
      "/Users/a/nb" "20240115093000" "/Shared/runs/" 1 2).2.1 = 0 ∧
    countExports (export_current_notebook_run
      [some (DbError.http "PERMISSION_DENIED" "m")]
      "/Users/a/nb" "20240115093000" "/Shared/runs/" 1 2).2.1 = 1 ∧
    (export_current_notebook_run
      [some (DbError.http "PERMISSION_DENIED" "m")]
      "/Users/a/nb" "20240115093000" "/Shared/runs/" 1 2).2.1
      = (backup_notebook [some (DbError.http "PERMISSION_DENIED" "m")]
          "/Users/a/nb"
          (run_target_path "/Shared/runs/" "/Users/a/nb"
            "20240115093000").as_posix tmpDirDefault 1).2.1 :=
  export_run_other_error_propagates
    [some (DbError.http "PERMISSION_DENIED" "m")]
    "/Users/a/nb" "20240115093000" "/Shared/runs/" 1 2
    (DbError.http "PERMISSION_DENIED" "m") rfl
    (by
      intro msg h
      exact absurd (DbError.http.inj h).1 (by decide))

/-- The current path with its leading slash stripped; on a path that does
start with a slash this is exactly what the source's slice of the string
from index 1 produces. -/
def stripLeadingSlash (s : String) : String :=
  if startsWithSlash s then s.drop 1 else s

/-- Claim C6: export_current_notebook_run composes target_path as the
runs directory joined with the current notebook path stripped of its
leading slash, joined with the timestamp; concretely, current path
/Users/a/nb, runs_dir /Shared/runs/ and timestamp 20240115093000 give
/Shared/runs/Users/a/nb/20240115093000. -/
theorem run_target_path_composition
    (current_path timestamp runs_dir : String)
    (habs : startsWithSlash current_path = true) :
    run_target_path runs_dir current_path timestamp
      = ((PurePosixPath.ofString runs_dir).joinpath
          (stripLeadingSlash current_path)).joinpath timestamp ∧
    (run_target_path "/Shared/runs/" "/Users/a/nb"
      "20240115093000").as_posix
      = "/Shared/runs/Users/a/nb/20240115093000" := by
  constructor
  · rw [run_target_path, stripLeadingSlash, if_pos habs]
  · rfl

theorem run_target_path_composition_witness :
    run_target_path "/Shared/runs/" "/Users/a/nb" "20240115093000"
      = ((PurePosixPath.ofString "/Shared/runs/").joinpath
          (stripLeadingSlash "/Users/a/nb")).joinpath "20240115093000" ∧
    (run_target_path "/Shared/runs/" "/Users/a/nb"
      "20240115093000").as_posix
      = "/Shared/runs/Users/a/nb/20240115093000" :=
  run_target_path_composition "/Users/a/nb" "20240115093000"
    "/Shared/runs/" rfl

theorem ite_ne_char {p : Prop} [Decidable p] {a b c : Char}
    (h1 : a ≠ c) (h2 : b ≠ c) : (if p then a else b) ≠ c := by
  by_cases hp : p
  · rw [if_pos hp]
    exact h1
  · rw [if_neg hp]
    exact h2

theorem digitChar_ne_slash (n : Nat) : Nat.digitChar n ≠ '/' := by
  unfold Nat.digitChar
  apply ite_ne_char (by decide)
  apply ite_ne_char (by decide)
  apply ite_ne_char (by decide)
  apply ite_ne_char (by decide)
  apply ite_ne_char (by decide)
  apply ite_ne_char (by decide)
  apply ite_ne_char (by decide)
  apply ite_ne_char (by decide)
  apply ite_ne_char (by decide)
  apply ite_ne_char (by decide)
  apply ite_ne_char (by decide)
  apply ite_ne_char (by decide)
  apply ite_ne_char (by decide)
  apply ite_ne_char (by decide)
  apply ite_ne_char (by decide)
  apply ite_ne_char (by decide)
  decide

theorem toDigitsCore_ne_slash (b fuel : Nat) :
    ∀ (n : Nat) (ds : List Char), (∀ c ∈ ds, c ≠ '/') →
      ∀ c ∈ Nat.toDigitsCore b fuel n ds, c ≠ '/' := by
  induction fuel with
  | zero =>
      intro n ds h c hc
      exact h c hc
  | succ fuel ih =>
      intro n ds h c hc
      simp only [Nat.toDigitsCore] at hc
      by_cases hz : n / b = 0
      · rw [if_pos hz] at hc
        rcases List.mem_cons.mp hc with hc | hc
        · rw [hc]
          exact digitChar_ne_slash _
        · exact h c hc
      · rw [if_neg hz] at hc
        refine ih (n / b) (Nat.digitChar (n % b) :: ds) ?_ c hc
        intro c2 hc2
        rcases List.mem_cons.mp hc2 with hc2 | hc2
        · rw [hc2]
          exact digitChar_ne_slash _
        · exact h c2 hc2

theorem toString_nat_ne_slash (n : Nat) :
    ∀ c ∈ (toString n).data, c ≠ '/' := by
  intro c hc
  exact toDigitsCore_ne_slash 10 (n + 1) n [] (by intro c2 hc2; cases hc2)
    c hc

theorem splitSlashAux_no_slash :
    ∀ (cs acc : List Char), (∀ c ∈ cs, c ≠ '/') →
      splitSlashAux cs acc = [acc.reverse ++ cs] := by
  intro cs
  induction cs with
  | nil =>
      intro acc h
      simp [splitSlashAux]
  | cons c cs ih =>
      intro acc h
      have hc : c ≠ '/' := h c (List.mem_cons_self c cs)
      simp only [splitSlashAux, if_neg hc]
      rw [ih (c :: acc) (fun c2 hc2 => h c2 (List.mem_cons_of_mem c hc2))]
      simp

theorem pathParts_no_slash (s : String) (h : ∀ c ∈ s.data, c ≠ '/')
    (h1 : s ≠ "") (h2 : s ≠ ".") : pathParts s = [s] := by
  have hs : splitSlashAux s.toList [] = [s.toList] :=
    splitSlashAux_no_slash s.toList [] h
  rw [pathParts, hs]
  simp only [List.map]
  have hmk : String.mk s.toList = s := rfl
  rw [hmk]
  simp [List.filter_cons, h1, h2]

theorem backup_name_parts (n : Nat) :
    pathParts ("backup_" ++ toString n) = ["backup_" ++ toString n] := by
  apply pathParts_no_slash
  · intro c hc
    rw [String.data_append] at hc
    rcases List.mem_append.mp hc with hc | hc
    · exact (by decide : ∀ c ∈ "backup_".data, c ≠ '/') c hc
    · exact toString_nat_ne_slash n c hc
  · intro hEq
    have hlen := congrArg (fun t => t.data.length) hEq
    simp only [String.data_append, List.length_append] at hlen
    have h7 : ("backup_" : String).data.length = 7 := rfl
    have h0 : ("" : String).data.length = 0 := rfl
    rw [h7, h0] at hlen
    omega
  · intro hEq
    have hlen := congrArg (fun t => t.data.length) hEq
    simp only [String.data_append, List.length_append] at hlen
    have h7 : ("backup_" : String).data.length = 7 := rfl
    have h0 : ("." : String).data.length = 1 := rfl
    rw [h7, h0] at hlen
    omega

/-- Claim C7: the staging path backup_notebook generates is tmp_dir joined
with the single name backup_ followed by the drawn number n, i.e. its
components are tmp_dir's components plus that one name and its
absoluteness is tmp_dir's; with the default staging directory the path
string is /dbfs/mnt/external/tmp/backup_n.  The draw n is any value
random.randint(0,1000) can return, characterized by the bound n ≤ 1000;
the name space is exactly backup_0 through backup_1000, and the code
neither checks for an existing file of that name nor retries. -/
theorem backup_intermediate_pattern
    (tmp_dir : String) (n : Nat) (hn : n ≤ 1000) :
    (backup_intermediate tmp_dir n).parts
      = (PurePosixPath.ofString tmp_dir).parts
        ++ ["backup_" ++ toString n] ∧
    (backup_intermediate tmp_dir n).absolute
      = (PurePosixPath.ofString tmp_dir).absolute ∧
    (backup_intermediate tmpDirDefault n).as_posix
      = "/dbfs/mnt/external/tmp/backup_" ++ toString n := by
  have hsw : startsWithSlash ("backup_" ++ toString n) = false := rfl
  have hne : ¬ (startsWithSlash ("backup_" ++ toString n) = true) := by
    rw [hsw]
    exact Bool.false_ne_true
  have hparts := backup_name_parts n
  have h1 : backup_intermediate tmp_dir n
      = ⟨(PurePosixPath.ofString tmp_dir).absolute,
          (PurePosixPath.ofString tmp_dir).parts
            ++ pathParts ("backup_" ++ toString n)⟩ := by
    rw [backup_intermediate, PurePosixPath.joinpath, if_neg hne]
  have h2 : backup_intermediate tmpDirDefault n
      = ⟨true, "dbfs" :: "mnt" :: "external" :: "tmp"
          :: pathParts ("backup_" ++ toString n)⟩ := by
    rw [backup_intermediate, PurePosixPath.joinpath, if_neg hne]
    rfl
  refine ⟨?_, ?_, ?_⟩
  · rw [h1]
    show (PurePosixPath.ofString tmp_dir).parts
        ++ pathParts ("backup_" ++ toString n) = _
    rw [hparts]
  · rw [h1]
  · rw [h2, hparts]
    rfl

theorem backup_intermediate_pattern_witness :
    (backup_intermediate "/some/tmp" 42).parts
      = (PurePosixPath.ofString "/some/tmp").parts
        ++ ["backup_" ++ toString 42] ∧
    (backup_intermediate "/some/tmp" 42).absolute
      = (PurePosixPath.ofString "/some/tmp").absolute ∧
    (backup_intermediate tmpDirDefault 42).as_posix
      = "/dbfs/mnt/external/tmp/backup_" ++ toString 42 :=
  backup_intermediate_pattern "/some/tmp" 42 (by decide)

/-- Claim C8: create_job with a non-empty cluster_name and any provided
cluster_id fails the local assert: the result is the assertion error and
the trace is empty, so no remote call was made. -/
theorem create_job_both_clusters_assert
    (env : Env) (ctx : NotebookContext) (w : Oracle)
    (notebook_path : String)
    (job_name notifications_email : Option String)
    (cn ci : String) (hcn : cn ≠ "") :
    create_job env ctx w notebook_path job_name (some cn) (some ci)
      notifications_email
      = (Except.error PyError.assertionError, [], w) := by
  have ht : truthy (some cn) = true := by
    simp only [truthy, bne_iff_ne, ne_eq]
    exact hcn
  rw [create_job, if_pos ht, if_pos (show (some ci).isSome = true from rfl)]

theorem create_job_both_clusters_assert_witness :
    create_job ⟨fun _ => "cid"⟩ ⟨"/x/y/z", "c"⟩ [] "/nb" none
      (some "mycluster") (some "0123-id") none
      = (Except.error PyError.assertionError, [], []) :=
  create_job_both_clusters_assert ⟨fun _ => "cid"⟩ ⟨"/x/y/z", "c"⟩ []
    "/nb" none none "mycluster" "0123-id" (by decide)

/-- Claim C9: create_job resolves a relative notebook_path against the
parent of the current notebook path (relative foo/bar with current
/x/y/z resolves to /x/y/foo/bar and the submitted spec carries that
absolute path), while an absolute notebook_path is left unchanged. -/
theorem create_job_resolves_relative_path (env : Env) (cid : String) :
    (∀ (ctx : NotebookContext) (p : String),
      (PurePosixPath.ofString p).is_absolute = true →
      resolve_notebook_path ctx p = p) ∧
    resolve_notebook_path ⟨"/x/y/z", cid⟩ "foo/bar" = "/x/y/foo/bar" ∧
    (create_job env ⟨"/x/y/z", cid⟩ [] "foo/bar" none none none none).1
      = Except.ok ⟨"foo/bar", cid, "/x/y/foo/bar", [none], [none]⟩ := by
  refine ⟨?_, rfl, rfl⟩
  intro ctx p hp
  rw [resolve_notebook_path, if_pos hp]

theorem create_job_resolves_relative_path_witness :
    resolve_notebook_path ⟨"/q/r", "c"⟩ "/abs/path" = "/abs/path" ∧
    resolve_notebook_path ⟨"/x/y/z", "c"⟩ "foo/bar" = "/x/y/foo/bar" ∧
    (create_job ⟨fun _ => "cid"⟩ ⟨"/x/y/z", "c"⟩ [] "foo/bar" none none
        none none).1
      = Except.ok ⟨"foo/bar", "c", "/x/y/foo/bar", [none], [none]⟩ :=
  ⟨(create_job_resolves_relative_path ⟨fun _ => "cid"⟩ "c").1
      ⟨"/q/r", "c"⟩ "/abs/path" rfl,
   (create_job_resolves_relative_path ⟨fun _ => "cid"⟩ "c").2.1,
   (create_job_resolves_relative_path ⟨fun _ => "cid"⟩ "c").2.2⟩

/-- Claim C10: when job_name is not given, the submitted job's name is
the notebook_path argument exactly as passed, captured before
relative-path resolution, while the spec's notebook_task path is the
resolved path; concretely a relative argument gives a spec named foo/bar
whose task path is /x/y/foo/bar, two different strings. -/
theorem create_job_name_is_unresolved_path
    (env : Env) (ctx : NotebookContext) (w : Oracle) (p : String)
    (notifications_email : Option String) (spec : JobSpec)
    (hok : (create_job env ctx w p none none none notifications_email).1
      = Except.ok spec) :
    spec.name = p ∧
    spec.notebook_task_path = resolve_notebook_path ctx p ∧
    (create_job ⟨fun _ => "cid"⟩ ⟨"/x/y/z", "c"⟩ [] "foo/bar" none none
        none none).1
      = Except.ok ⟨"foo/bar", "c", "/x/y/foo/bar", [none], [none]⟩ ∧
    ("foo/bar" : String) ≠ "/x/y/foo/bar" := by
  have hmain : spec.name = p ∧ spec.notebook_task_path
      = resolve_notebook_path ctx p := by
    rcases w with _ | ⟨o, w⟩
    · have hs := Except.ok.inj hok
      rw [← hs]
      exact ⟨rfl, rfl⟩
    · rcases o with _ | e
      · have hs := Except.ok.inj hok
        rw [← hs]
        exact ⟨rfl, rfl⟩
      · exact Except.noConfusion hok
  exact ⟨hmain.1, hmain.2, rfl, by decide⟩

theorem create_job_name_is_unresolved_path_witness :
    (JobSpec.name ⟨"foo/bar", "c", "/x/y/foo/bar", [none], [none]⟩
      = "foo/bar") ∧
    (JobSpec.notebook_task_path
        ⟨"foo/bar", "c", "/x/y/foo/bar", [none], [none]⟩
      = resolve_notebook_path ⟨"/x/y/z", "c"⟩ "foo/bar") ∧
    (create_job ⟨fun _ => "cid"⟩ ⟨"/x/y/z", "c"⟩ [] "foo/bar" none none
        none none).1
      = Except.ok ⟨"foo/bar", "c", "/x/y/foo/bar", [none], [none]⟩ ∧
    ("foo/bar" : String) ≠ "/x/y/foo/bar" :=
  create_job_name_is_unresolved_path ⟨fun _ => "cid"⟩ ⟨"/x/y/z", "c"⟩ []
    "foo/bar" none ⟨"foo/bar", "c", "/x/y/foo/bar", [none], [none]⟩ rfl
